/-
Verification of the gesture-tracking core of
`EDGEucatorWebApp/server/gesture_server.py`.

The per-frame pipeline (One Euro Filter smoothing, debounce confirmation,
relative-delta computation, inactivity reset) is embedded shallowly over ℚ:
Python floats are idealised as exact rationals, `math.pi` is the exact value
of the IEEE-754 double constant `math.pi` used by the source, and the
transcendental library primitive `math.degrees(math.atan2(y, x))` is kept
abstract as a function parameter `atan2deg : ℚ → ℚ → ℚ` (the pipeline only
moves its outputs around; no claim depends on its numeric values).
-/
import Mathlib

namespace GestureServer

/-! ## Tunable constants — the `S` table of `gesture_server.py` -/

def S_PAN_SENSITIVITY : ℚ := 3.5

def S_ROT_H_SENSITIVITY : ℚ := 200.0

def S_ROT_V_SENSITIVITY : ℚ := 180.0

def S_OEF_MIN_CUTOFF : ℚ := 1.0

def S_OEF_BETA : ℚ := 0.07

def S_OEF_D_CUTOFF : ℚ := 1.0

def S_GESTURE_CONFIRM_FRAMES : ℤ := 2

def S_MIN_CONFIDENCE : ℚ := 0.50

def S_RESET_MIN_CONFIDENCE : ℚ := 0.80

def S_PAN_MIN_CONFIDENCE : ℚ := 0.30

def S_INACTIVE_MS : ℚ := 1000

def S_THUMB_ZOOM_SPEED : ℚ := 0.08

/-- The `GESTURE_MAP` dict: MediaPipe gesture category name → control mode.
`GESTURE_MAP.get(name, "NONE")` is modelled by returning `"NONE"` on any
unmapped label. -/
def GESTURE_MAP (gesture_name : String) : String :=
  if gesture_name = "Pointing_Up" then "PAN"
  else if gesture_name = "Thumb_Up" then "ZOOM_IN"
  else if gesture_name = "Thumb_Down" then "ZOOM_OUT"
  else if gesture_name = "Victory" then "ROTATE_H"
  else if gesture_name = "Open_Palm" then "ROTATE_V"
  else if gesture_name = "Closed_Fist" then "RESET"
  else "NONE"

/-! ## One Euro Filter -/

/-- Exact rational value of the IEEE-754 double constant `math.pi`
(0x400921FB54442D18 = 884279719003555 · 2⁻⁴⁸) used by the source. -/
def mathPi : ℚ := 884279719003555 / 281474976710656

/-- The `max(t - self._t, 1e-6)` time-delta floor in `OneEuroFilter.__call__`. -/
def oefDt (tPrev t : ℚ) : ℚ := max (t - tPrev) (1 / 1000000)

/-- The `OneEuroFilter._alpha` helper: `tau = 1/(2*pi*cutoff)`, result
`1/(1 + tau/dt)`. -/
def oefAlpha (cutoff dt : ℚ) : ℚ :=
  1 / (1 + (1 / (2 * mathPi * cutoff)) / dt)

/-- State of `OneEuroFilter`: configuration plus the optional last sample
`_x`, the smoothed derivative `_dx`, and the optional last timestamp `_t`.
The source maintains the invariant that `_x` and `_t` are both set or both
unset. -/
structure OneEuroFilter where
  min_cutoff : ℚ
  beta : ℚ
  d_cutoff : ℚ
  x : Option ℚ
  dx : ℚ
  t : Option ℚ
deriving DecidableEq, Repr

/-- The `OneEuroFilter.reset` method: clear `_x`, `_t` and the derivative
memory. -/
def OneEuroFilter.reset (f : OneEuroFilter) : OneEuroFilter :=
  { f with x := none, dx := 0, t := none }

/-- The `OneEuroFilter.__call__(x, t)` update: the first sample is stored and returned
unchanged; afterwards the smoothed derivative drives an adaptive cutoff and
the sample is blended with the stored value.  The `(some, none)` state is
unreachable under the source's both-set-or-both-unset invariant; it takes
the first-sample branch, exactly like the source's `if self._x is None`
guard would after a partial reset. -/
def OneEuroFilter.call (f : OneEuroFilter) (x t : ℚ) : OneEuroFilter × ℚ :=
  match f.x, f.t with
  | some x0, some t0 =>
      let dt := oefDt t0 t
      let dx := (x - x0) / dt
      let a_d := oefAlpha f.d_cutoff dt
      let dx_hat := a_d * dx + (1 - a_d) * f.dx
      let cutoff := f.min_cutoff + f.beta * |dx_hat|
      let a := oefAlpha cutoff dt
      let x_hat := a * x + (1 - a) * x0
      ({ f with x := some x_hat, dx := dx_hat, t := some t }, x_hat)
  | _, _ => ({ f with x := some x, t := some t }, x)

/-- A freshly constructed filter with the `S` table's parameters, as built in
`TrackState.__init__`. -/
def mkFilter : OneEuroFilter :=
  { min_cutoff := S_OEF_MIN_CUTOFF, beta := S_OEF_BETA,
    d_cutoff := S_OEF_D_CUTOFF, x := none, dx := 0, t := none }

/-! ## Per-session tracking state -/

/-- The `TrackState` class: previous-frame values, debounce counters, confirmed mode,
inactivity clock, and the four per-coordinate One Euro Filters. -/
structure TrackState where
  prev_x : ℚ
  prev_y : ℚ
  prev_avg_y : ℚ
  prev_angle : ℚ
  first_frame : Bool
  candidate_mode : String
  candidate_count : ℤ
  confirmed_mode : String
  last_active_s : ℚ
  f8x : OneEuroFilter
  f8y : OneEuroFilter
  f12x : OneEuroFilter
  f12y : OneEuroFilter
deriving DecidableEq, Repr

/-- The `TrackState.__init__` constructor. -/
def TrackState.init : TrackState :=
  { prev_x := 0, prev_y := 0, prev_avg_y := 0, prev_angle := 0,
    first_frame := true, candidate_mode := "NONE", candidate_count := 0,
    confirmed_mode := "NONE", last_active_s := 0,
    f8x := mkFilter, f8y := mkFilter, f12x := mkFilter, f12y := mkFilter }

/-- The `TrackState.reset_filters` method. -/
def TrackState.reset_filters (s : TrackState) : TrackState :=
  { s with f8x := s.f8x.reset, f8y := s.f8y.reset,
           f12x := s.f12x.reset, f12y := s.f12y.reset }

/-! ## Frame inputs and output packets -/

/-- One detected-hand sample: the two landmarks the pipeline reads
(`raw_lm[8]`, `raw_lm[12]`), plus the top gesture's category name and
score. -/
structure HandSample where
  l8x : ℚ
  l8y : ℚ
  l12x : ℚ
  l12y : ℚ
  gesture_name : String
  confidence : ℚ
deriving DecidableEq, Repr

/-- One loop iteration's recogniser outcome: either a hand with landmarks and
a gesture, or no detection (`not result.hand_landmarks or not
result.gestures`). -/
inductive FrameInput where
  | hand (h : HandSample)
  | noHand
deriving DecidableEq, Repr

/-- The JSON packet pushed to the WebSocket queue. -/
structure Packet where
  active : Bool
  gesture : String
  confidence : ℚ
  mode : String
  dPanX : ℚ
  dPanY : ℚ
  dTheta : ℚ
  dPhi : ℚ
  dRadius : ℚ
  reset : Bool
deriving DecidableEq, Repr

/-- Python's `round(x, n)` on the idealised reals: exact decimal rounding to
`n` places (ties round half-up here; Python's float `round` ties to even,
but no value in this development sits on a tie). -/
def pyRound (n : ℕ) (q : ℚ) : ℚ := (round (q * 10 ^ n) : ℤ) / 10 ^ n

/-- The `active=False` packet pushed once when the inactivity window is
crossed. -/
def inactivePacket : Packet :=
  { active := false, gesture := "None", confidence := 0, mode := "NONE",
    dPanX := 0, dPanY := 0, dTheta := 0, dPhi := 0, dRadius := 0,
    reset := false }

/-! ## Confirmation and delta computation -/

/-- Per-gesture confidence threshold lookup (the `if mapped == "RESET" …`
chain). -/
def requiredConfidence (mapped : String) : ℚ :=
  if mapped = "RESET" then S_RESET_MIN_CONFIDENCE
  else if mapped = "PAN" then S_PAN_MIN_CONFIDENCE
  else S_MIN_CONFIDENCE

/-- The gating line `raw_mode = mapped if confidence >= required else "NONE"`. -/
def rawModeOf (gesture_name : String) (confidence : ℚ) : String :=
  let mapped := GESTURE_MAP gesture_name
  if requiredConfidence mapped ≤ confidence then mapped else "NONE"

/-- The two sequential wraparound conditionals of the ROTATE_H branch:
`if delta > 180: delta -= 360` then `if delta < -180: delta += 360`. -/
def wrapDelta (delta : ℚ) : ℚ :=
  let d1 := if delta > 180 then delta - 360 else delta
  if d1 < -180 then d1 + 360 else d1

/-- The five delta fields plus the `do_reset` flag. -/
structure Deltas where
  d_pan_x : ℚ
  d_pan_y : ℚ
  d_theta : ℚ
  d_phi : ℚ
  d_radius : ℚ
  do_reset : Bool
deriving DecidableEq, Repr

/-- All-zero deltas with `do_reset = False` — the initialisation
`d_pan_x = d_pan_y = d_theta = d_phi = d_radius = 0.0; do_reset = False`. -/
def zeroDeltas : Deltas :=
  { d_pan_x := 0, d_pan_y := 0, d_theta := 0, d_phi := 0, d_radius := 0,
    do_reset := false }

/-- The mode dispatch of the relative-delta block, evaluated on the current
filtered landmarks and the previous-frame fields of `track`. -/
def computeDeltas (atan2deg : ℚ → ℚ → ℚ) (mode : String)
    (L8x L8y L12x L12y : ℚ) (track : TrackState) : Deltas :=
  if mode = "PAN" then
    { zeroDeltas with
        d_pan_x := -(L8x - track.prev_x) * S_PAN_SENSITIVITY,
        d_pan_y := -(L8y - track.prev_y) * S_PAN_SENSITIVITY }
  else if mode = "ZOOM_IN" then
    { zeroDeltas with d_radius := -S_THUMB_ZOOM_SPEED }
  else if mode = "ZOOM_OUT" then
    { zeroDeltas with d_radius := S_THUMB_ZOOM_SPEED }
  else if mode = "ROTATE_H" then
    let curr_angle := atan2deg (L12y - L8y) (L12x - L8x)
    { zeroDeltas with
        d_theta := wrapDelta (curr_angle - track.prev_angle) *
          (S_ROT_H_SENSITIVITY / 100) }
  else if mode = "ROTATE_V" then
    let avg_y := (L8y + L12y) / 2
    { zeroDeltas with
        d_phi := (avg_y - track.prev_avg_y) * S_ROT_V_SENSITIVITY }
  else if mode = "RESET" then
    { zeroDeltas with do_reset := true }
  else zeroDeltas

/-- The packet pushed for a processed hand frame: the rounding applied by
`push` in the source (`round(…, 4)` on confidence and on the rotation and
radius deltas, `round(…, 5)` on the pan deltas). -/
def handPacket (g : String) (conf : ℚ) (m : String) (d : Deltas) : Packet :=
  { active := true, gesture := g, confidence := pyRound 4 conf,
    mode := m, dPanX := pyRound 5 d.d_pan_x, dPanY := pyRound 5 d.d_pan_y,
    dTheta := pyRound 4 d.d_theta, dPhi := pyRound 4 d.d_phi,
    dRadius := pyRound 4 d.d_radius, reset := d.do_reset }

/-! ## The per-frame pipeline (body of the `detection_thread` loop) -/

/-- One iteration of the detection loop on an already-recognised frame at
monotonic time `t`: the no-hand inactivity branch, or the hand branch
(filters → confirmation → deltas → previous-frame update → packet).
The source calls `time.monotonic()` up to three times per iteration (the
filter time, the inactivity comparison, `last_active_s`); all three are
modelled by the single frame time `t`.  Returns the updated `TrackState`
and the packet pushed this frame, if any. -/
def processFrame (atan2deg : ℚ → ℚ → ℚ) (track : TrackState)
    (input : FrameInput) (t : ℚ) : TrackState × Option Packet :=
  match input with
  | FrameInput.noHand =>
      if (t - track.last_active_s) * 1000 > S_INACTIVE_MS then
        if track.confirmed_mode ≠ "NONE" then
          ({ track.reset_filters with
               candidate_mode := "NONE", candidate_count := 0,
               confirmed_mode := "NONE", first_frame := true },
           some inactivePacket)
        else (track, none)
      else (track, none)
  | FrameInput.hand h =>
      let r8x := track.f8x.call h.l8x t
      let r8y := track.f8y.call h.l8y t
      let r12x := track.f12x.call h.l12x t
      let r12y := track.f12y.call h.l12y t
      let L8x := r8x.2
      let L8y := r8y.2
      let L12x := r12x.2
      let L12y := r12y.2
      let raw_mode := rawModeOf h.gesture_name h.confidence
      let cand :=
        if raw_mode = track.candidate_mode then track.candidate_mode
        else raw_mode
      let cnt :=
        if raw_mode = track.candidate_mode then
          min (track.candidate_count + 1) S_GESTURE_CONFIRM_FRAMES
        else 1
      let committed :=
        S_GESTURE_CONFIRM_FRAMES ≤ cnt ∧ cand ≠ track.confirmed_mode
      let conf := if committed then cand else track.confirmed_mode
      let ff := if committed then true else track.first_frame
      let mode := conf
      let d :=
        if S_GESTURE_CONFIRM_FRAMES ≤ cnt ∧ ff = false then
          computeDeltas atan2deg mode L8x L8y L12x L12y track
        else zeroDeltas
      ({ track with
           last_active_s := t,
           f8x := r8x.1, f8y := r8y.1, f12x := r12x.1, f12y := r12y.1,
           candidate_mode := cand, candidate_count := cnt,
           confirmed_mode := conf,
           prev_x := L8x, prev_y := L8y,
           prev_avg_y := (L8y + L12y) / 2,
           prev_angle := atan2deg (L12y - L8y) (L12x - L8x),
           first_frame := false },
       some (handPacket h.gesture_name h.confidence mode d))

/-- Run the loop over a list of timestamped frames, collecting the emitted
packets in order. -/
def runFrames (atan2deg : ℚ → ℚ → ℚ) (s : TrackState) :
    List (FrameInput × ℚ) → TrackState × List Packet
  | [] => (s, [])
  | (input, t) :: rest =>
      let r := processFrame atan2deg s input t
      let r' := runFrames atan2deg r.1 rest
      (r'.1, r.2.toList ++ r'.2)

/-- The successive states a session passes through on a list of frames,
starting from (and including) `s`. -/
def traceStates (atan2deg : ℚ → ℚ → ℚ) (s : TrackState) :
    List (FrameInput × ℚ) → List TrackState
  | [] => [s]
  | (input, t) :: rest =>
      s :: traceStates atan2deg (processFrame atan2deg s input t).1 rest

/-- A concrete stand-in for `math.degrees(math.atan2(y, x))`, used to
instantiate the abstract parameter in concrete runs whose claims do not
depend on the angle's value. -/
def atan2degZero : ℚ → ℚ → ℚ := fun _ _ => 0

/-! ## Helper lemmas -/

lemma mathPi_pos : (0 : ℚ) < mathPi := by norm_num [mathPi]

lemma oefDt_ge (tv t : ℚ) : (1 / 1000000 : ℚ) ≤ oefDt tv t := le_max_right _ _

lemma oefDt_pos (tv t : ℚ) : 0 < oefDt tv t :=
  lt_of_lt_of_le (by norm_num) (oefDt_ge tv t)

lemma twoPiMul_pos {c : ℚ} (hc : 0 < c) : 0 < 2 * mathPi * c :=
  mul_pos (mul_pos two_pos mathPi_pos) hc

lemma oefAlpha_den_pos {c dt : ℚ} (hc : 0 < c) (hdt : 0 < dt) :
    0 < 1 + (1 / (2 * mathPi * c)) / dt := by
  have h1 : 0 < (1 / (2 * mathPi * c)) / dt :=
    div_pos (one_div_pos.2 (twoPiMul_pos hc)) hdt
  linarith

lemma oefAlpha_pos {c dt : ℚ} (hc : 0 < c) (hdt : 0 < dt) :
    0 < oefAlpha c dt :=
  one_div_pos.2 (oefAlpha_den_pos hc hdt)

lemma oefAlpha_lt_one {c dt : ℚ} (hc : 0 < c) (hdt : 0 < dt) :
    oefAlpha c dt < 1 := by
  have h1 : 0 < (1 / (2 * mathPi * c)) / dt :=
    div_pos (one_div_pos.2 (twoPiMul_pos hc)) hdt
  have h2 := oefAlpha_den_pos hc hdt
  rw [oefAlpha, div_lt_one h2]
  linarith

lemma oefAlpha_mono {c1 c2 dt : ℚ} (h1 : 0 < c1) (h12 : c1 ≤ c2)
    (hdt : 0 < dt) : oefAlpha c1 dt ≤ oefAlpha c2 dt := by
  have hc2 : 0 < c2 := lt_of_lt_of_le h1 h12
  have hm1 := twoPiMul_pos h1
  have hm2 := twoPiMul_pos hc2
  have hinv : 1 / (2 * mathPi * c2) ≤ 1 / (2 * mathPi * c1) := by
    apply one_div_le_one_div_of_le hm1
    have : (0 : ℚ) ≤ 2 * mathPi := by nlinarith [mathPi_pos]
    nlinarith
  have hdiv : (1 / (2 * mathPi * c2)) / dt ≤ (1 / (2 * mathPi * c1)) / dt :=
    (div_le_div_iff_of_pos_right hdt).2 hinv
  rw [oefAlpha, oefAlpha]
  apply one_div_le_one_div_of_le (oefAlpha_den_pos hc2 hdt)
  linarith

@[simp] lemma pyRound_zero (n : ℕ) : pyRound n 0 = 0 := by
  simp [pyRound]

/-- On a hand frame whose gated raw mode continues the candidate streak of
an already-confirmed mode (streak at least 1 before the frame, so the
clamped streak is at the threshold) with `first_frame` lowered, the pipeline
emits the mode's delta packet computed by `computeDeltas` on the freshly
filtered landmarks and the previous-frame fields. -/
lemma steady_packet (a : ℚ → ℚ → ℚ) (s : TrackState) (h : HandSample)
    (t : ℚ) (M : String)
    (hraw : rawModeOf h.gesture_name h.confidence = M)
    (hcand : s.candidate_mode = M) (hconf : s.confirmed_mode = M)
    (hcnt : 1 ≤ s.candidate_count) (hff : s.first_frame = false) :
    (processFrame a s (FrameInput.hand h) t).2 =
      some (handPacket h.gesture_name h.confidence M
        (computeDeltas a M (s.f8x.call h.l8x t).2 (s.f8y.call h.l8y t).2
          (s.f12x.call h.l12x t).2 (s.f12y.call h.l12y t).2 s)) ∧
    (processFrame a s (FrameInput.hand h) t).1.confirmed_mode = M ∧
    (processFrame a s (FrameInput.hand h) t).1.candidate_mode = M ∧
    (processFrame a s (FrameInput.hand h) t).1.candidate_count = 2 ∧
    (processFrame a s (FrameInput.hand h) t).1.first_frame = false := by
  have hmin : min (s.candidate_count + 1) S_GESTURE_CONFIRM_FRAMES = 2 := by
    simp only [S_GESTURE_CONFIRM_FRAMES]
    omega
  have h2 : (2 : ℤ) ≤ s.candidate_count + 1 := by omega
  simp [processFrame, hraw, hcand, hconf, hff, hmin, h2,
    S_GESTURE_CONFIRM_FRAMES]

/-- On a hand frame whose gated raw mode continues the candidate streak up
to the threshold while differing from the confirmed mode, the pipeline
commits the new mode, raises `first_frame` for this frame, and emits the
new mode's packet with all-zero deltas and `reset = false` regardless of
the landmarks. -/
lemma commit_packet (a : ℚ → ℚ → ℚ) (s : TrackState) (h : HandSample)
    (t : ℚ) (M : String)
    (hraw : rawModeOf h.gesture_name h.confidence = M)
    (hcand : s.candidate_mode = M) (hne : M ≠ s.confirmed_mode)
    (hcnt : 1 ≤ s.candidate_count) :
    (processFrame a s (FrameInput.hand h) t).2 =
      some (handPacket h.gesture_name h.confidence M zeroDeltas) ∧
    (handPacket h.gesture_name h.confidence M zeroDeltas).dPanX = 0 ∧
    (handPacket h.gesture_name h.confidence M zeroDeltas).dPanY = 0 ∧
    (handPacket h.gesture_name h.confidence M zeroDeltas).dTheta = 0 ∧
    (handPacket h.gesture_name h.confidence M zeroDeltas).dPhi = 0 ∧
    (handPacket h.gesture_name h.confidence M zeroDeltas).dRadius = 0 ∧
    (handPacket h.gesture_name h.confidence M zeroDeltas).reset = false ∧
    (handPacket h.gesture_name h.confidence M zeroDeltas).mode = M ∧
    (processFrame a s (FrameInput.hand h) t).1.confirmed_mode = M ∧
    (processFrame a s (FrameInput.hand h) t).1.candidate_mode = M ∧
    (processFrame a s (FrameInput.hand h) t).1.candidate_count = 2 ∧
    (processFrame a s (FrameInput.hand h) t).1.first_frame = false := by
  have hmin : min (s.candidate_count + 1) S_GESTURE_CONFIRM_FRAMES = 2 := by
    simp only [S_GESTURE_CONFIRM_FRAMES]
    omega
  have hne' : ¬ M = s.confirmed_mode := hne
  have h2 : (2 : ℤ) ≤ s.candidate_count + 1 := by omega
  have h3 : ¬ (s.candidate_count + 1 < 2) := by omega
  simp [processFrame, handPacket, zeroDeltas, hraw, hcand, hne', hmin, h2, h3,
    S_GESTURE_CONFIRM_FRAMES]

/-- On any no-hand frame, a session whose confirmed mode is already NONE is
left completely untouched and pushes nothing. -/
lemma processFrame_noHand_idle (a : ℚ → ℚ → ℚ) (s : TrackState) (t : ℚ)
    (h : s.confirmed_mode = "NONE") :
    processFrame a s FrameInput.noHand t = (s, none) := by
  simp [processFrame, h]

/-- Iterating no-hand frames from an idle session changes nothing and emits
no packets. -/
lemma runFrames_noHand_idle (a : ℚ → ℚ → ℚ) (s : TrackState)
    (h : s.confirmed_mode = "NONE") :
    ∀ ts : List ℚ,
      runFrames a s (ts.map fun u => (FrameInput.noHand, u)) = (s, []) := by
  intro ts
  induction ts with
  | nil => simp [runFrames]
  | cons u us ih =>
      simp [runFrames, processFrame_noHand_idle a s u h, ih]

/-! ## Concrete states used by witnesses and counterexamples -/

/-- A filter holding a previous sample `xv` at time `tv` with derivative
memory `dxv`, configured with the `S` table's parameters. -/
def oefAt (xv tv dxv : ℚ) : OneEuroFilter :=
  { min_cutoff := S_OEF_MIN_CUTOFF, beta := S_OEF_BETA,
    d_cutoff := S_OEF_D_CUTOFF, x := some xv, dx := dxv, t := some tv }

/-- A `Pointing_Up` sample at confidence 0.95 with all landmarks at the
frame centre. -/
def pointingFrame : HandSample :=
  { l8x := 1/2, l8y := 1/2, l12x := 1/2, l12y := 1/2,
    gesture_name := "Pointing_Up", confidence := 19/20 }

/-- A `Closed_Fist` sample at confidence 0.81, above the RESET threshold. -/
def closedFist81Frame : HandSample :=
  { l8x := 1/2, l8y := 1/2, l12x := 1/2, l12y := 1/2,
    gesture_name := "Closed_Fist", confidence := 0.81 }

/-- The session state after one `Pointing_Up` hand frame from the initial
state: candidate PAN with streak 1, still unconfirmed. -/
def sUnconfirmed : TrackState :=
  (processFrame atan2degZero TrackState.init (FrameInput.hand pointingFrame) 0).1

/-- A session state with PAN confirmed (streak at threshold), previous-frame
fields and filters at the frame centre. -/
def sConfirmedPan : TrackState :=
  { prev_x := 1/2, prev_y := 1/2, prev_avg_y := 1/2, prev_angle := 0,
    first_frame := false, candidate_mode := "PAN", candidate_count := 2,
    confirmed_mode := "PAN", last_active_s := 3/100,
    f8x := oefAt (1/2) (3/100) 0, f8y := oefAt (1/2) (3/100) 0,
    f12x := oefAt (1/2) (3/100) 0, f12y := oefAt (1/2) (3/100) 0 }

/-! ## Claim C10 -/

/-- Claim C10: on any no-hand frame arriving while `confirmed_mode` is
already NONE, the tracker emits no packet and leaves the entire
`TrackState` — including all four filters — unchanged, no matter how long
the hand has been absent; iterating further no-hand frames still emits
nothing and preserves the state, so smoothing memory survives a hand loss
that happened before any mode was confirmed. -/
theorem noHand_idle_emits_nothing_preserves_state (a : ℚ → ℚ → ℚ)
    (s : TrackState) (t : ℚ) (h : s.confirmed_mode = "NONE") :
    processFrame a s FrameInput.noHand t = (s, none) ∧
    ∀ ts : List ℚ,
      runFrames a s (ts.map fun u => (FrameInput.noHand, u)) = (s, []) :=
  ⟨processFrame_noHand_idle a s t h, runFrames_noHand_idle a s h⟩

/-- Witness for C10: the unconfirmed post-first-frame state, with the hand
absent for two seconds, is returned untouched with no packet. -/
theorem noHand_idle_witness :
    sUnconfirmed.confirmed_mode = "NONE" ∧
    (processFrame atan2degZero sUnconfirmed FrameInput.noHand 2 =
        (sUnconfirmed, none) ∧
      ∀ ts : List ℚ,
        runFrames atan2degZero sUnconfirmed
          (ts.map fun u => (FrameInput.noHand, u)) = (sUnconfirmed, [])) :=
  ⟨by with_unfolding_all decide,
   noHand_idle_emits_nothing_preserves_state atan2degZero sUnconfirmed 2
     (by with_unfolding_all decide)⟩

/-- The state written by the inactivity-timeout branch: filters reset,
debounce counters cleared, `first_frame` raised. -/
def resetOf (s : TrackState) : TrackState :=
  { s.reset_filters with
    candidate_mode := "NONE", candidate_count := 0,
    confirmed_mode := "NONE", first_frame := true }

/-! ## Claim C2 -/

/-- Claim C2 (amended): when a no-hand frame arrives more than the
inactivity window (1000 ms) after `last_active_s` AND the confirmed mode is
not NONE, the tracker performs a full reset (all four filters reset,
candidate and confirmed mode NONE, streak 0, first_frame true) and emits
exactly one packet with `active = false`, all five deltas zero and
`reset = false`; every further no-hand frame before the hand reappears
emits no packet at all.  (The original claim omitted the
`confirmed_mode ≠ NONE` guard; see the counterexample.) -/
theorem inactivity_reset_edge_triggered (a : ℚ → ℚ → ℚ) (s : TrackState)
    (t : ℚ) (hactive : s.confirmed_mode ≠ "NONE")
    (helapsed : (t - s.last_active_s) * 1000 > S_INACTIVE_MS) :
    ∃ s' : TrackState,
      processFrame a s FrameInput.noHand t = (s', some inactivePacket) ∧
      s'.f8x = s.f8x.reset ∧ s'.f8y = s.f8y.reset ∧
      s'.f12x = s.f12x.reset ∧ s'.f12y = s.f12y.reset ∧
      s'.candidate_mode = "NONE" ∧ s'.candidate_count = 0 ∧
      s'.confirmed_mode = "NONE" ∧ s'.first_frame = true ∧
      inactivePacket.active = false ∧ inactivePacket.dPanX = 0 ∧
      inactivePacket.dPanY = 0 ∧ inactivePacket.dTheta = 0 ∧
      inactivePacket.dPhi = 0 ∧ inactivePacket.dRadius = 0 ∧
      inactivePacket.reset = false ∧
      ∀ ts : List ℚ,
        runFrames a s' (ts.map fun u => (FrameInput.noHand, u)) = (s', []) := by
  refine ⟨resetOf s, ?_, rfl, rfl, rfl, rfl, rfl, rfl, rfl, rfl, rfl, rfl,
    rfl, rfl, rfl, rfl, rfl, ?_⟩
  · simp [processFrame, helapsed, hactive, resetOf]
  · exact runFrames_noHand_idle a _ rfl

/-- Counterexample for C2 as stated: a session (reached from the initial
state by one `Pointing_Up` frame) loses the hand for two seconds — longer
than the inactivity window — yet, because no mode was confirmed, the
tracker emits no packet at all (the claim demands exactly one
`active=false` packet) and performs no reset: the candidate PAN is still
pending afterwards. -/
theorem inactivity_claim_fails_when_unconfirmed :
    sUnconfirmed =
      (processFrame atan2degZero TrackState.init
        (FrameInput.hand pointingFrame) 0).1 ∧
    (2 - sUnconfirmed.last_active_s) * 1000 > S_INACTIVE_MS ∧
    sUnconfirmed.candidate_mode = "PAN" ∧
    sUnconfirmed.confirmed_mode = "NONE" ∧
    processFrame atan2degZero sUnconfirmed FrameInput.noHand 2 =
      (sUnconfirmed, none) := by
  with_unfolding_all decide

/-- Witness for C2: a PAN-confirmed session that loses the hand for long
enough gets the single reset packet, and the amended conclusion holds at
this concrete state. -/
theorem inactivity_reset_witness :
    sConfirmedPan.confirmed_mode ≠ "NONE" ∧
    ((2 : ℚ) - sConfirmedPan.last_active_s) * 1000 > S_INACTIVE_MS ∧
    ∃ s' : TrackState,
      processFrame atan2degZero sConfirmedPan FrameInput.noHand 2 =
        (s', some inactivePacket) ∧
      s'.f8x = sConfirmedPan.f8x.reset ∧ s'.f8y = sConfirmedPan.f8y.reset ∧
      s'.f12x = sConfirmedPan.f12x.reset ∧
      s'.f12y = sConfirmedPan.f12y.reset ∧
      s'.candidate_mode = "NONE" ∧ s'.candidate_count = 0 ∧
      s'.confirmed_mode = "NONE" ∧ s'.first_frame = true ∧
      inactivePacket.active = false ∧ inactivePacket.dPanX = 0 ∧
      inactivePacket.dPanY = 0 ∧ inactivePacket.dTheta = 0 ∧
      inactivePacket.dPhi = 0 ∧ inactivePacket.dRadius = 0 ∧
      inactivePacket.reset = false ∧
      ∀ ts : List ℚ,
        runFrames atan2degZero s'
          (ts.map fun u => (FrameInput.noHand, u)) = (s', []) :=
  ⟨by with_unfolding_all decide, by with_unfolding_all decide,
   inactivity_reset_edge_triggered atan2degZero sConfirmedPan 2
     (by with_unfolding_all decide) (by with_unfolding_all decide)⟩

/-! ## Claim C4 -/

/-- After any hand frame the candidate mode is exactly the gated raw mode of
that frame. -/
lemma processFrame_hand_candidate (a : ℚ → ℚ → ℚ) (s : TrackState)
    (h : HandSample) (t : ℚ) :
    (processFrame a s (FrameInput.hand h) t).1.candidate_mode =
      rawModeOf h.gesture_name h.confidence := by
  simp only [processFrame]
  split
  next hc => exact hc.symm
  next => rfl

/-- On any hand frame the confirmed mode either stays or becomes the new
candidate mode. -/
lemma processFrame_hand_confirmed_cases (a : ℚ → ℚ → ℚ) (s : TrackState)
    (h : HandSample) (t : ℚ) :
    (processFrame a s (FrameInput.hand h) t).1.confirmed_mode =
        s.confirmed_mode ∨
    (processFrame a s (FrameInput.hand h) t).1.confirmed_mode =
        (processFrame a s (FrameInput.hand h) t).1.candidate_mode := by
  simp only [processFrame]
  split <;> split
  · exact Or.inr rfl
  · exact Or.inl rfl
  · exact Or.inr rfl
  · exact Or.inl rfl

/-- A hand frame whose gated raw mode is NONE can only keep the confirmed
mode or change it to NONE. -/
lemma confirmed_after_none_raw (a : ℚ → ℚ → ℚ) (s : TrackState)
    (h : HandSample) (t : ℚ)
    (hraw : rawModeOf h.gesture_name h.confidence = "NONE") :
    (processFrame a s (FrameInput.hand h) t).1.confirmed_mode =
        s.confirmed_mode ∨
    (processFrame a s (FrameInput.hand h) t).1.confirmed_mode = "NONE" := by
  rcases processFrame_hand_confirmed_cases a s h t with h1 | h1
  · exact Or.inl h1
  · right
    rw [h1, processFrame_hand_candidate, hraw]

/-- A hand frame that continues a qualifying candidate streak of at least
one frame drives the confirmed mode to that candidate (whether or not it
was already confirmed). -/
lemma confirm_after_streak (a : ℚ → ℚ → ℚ) (s : TrackState)
    (h : HandSample) (t : ℚ) (M : String)
    (hraw : rawModeOf h.gesture_name h.confidence = M)
    (hcand : s.candidate_mode = M) (hcnt : 1 ≤ s.candidate_count) :
    (processFrame a s (FrameInput.hand h) t).1.confirmed_mode = M := by
  have hmin : min (s.candidate_count + 1) S_GESTURE_CONFIRM_FRAMES = 2 := by
    simp only [S_GESTURE_CONFIRM_FRAMES]
    omega
  have h3 : ¬ (s.candidate_count + 1 < 2) := by omega
  by_cases hc : M = s.confirmed_mode
  · simp [processFrame, hraw, hcand, hmin, h3, ← hc, S_GESTURE_CONFIRM_FRAMES]
  · simp [processFrame, hraw, hcand, hmin, h3, hc, S_GESTURE_CONFIRM_FRAMES]

/-- A hand frame leaves the candidate streak at least 1 when the incoming
streak is nonnegative. -/
lemma processFrame_hand_count_ge_one (a : ℚ → ℚ → ℚ) (s : TrackState)
    (h : HandSample) (t : ℚ) (hc0 : 0 ≤ s.candidate_count) :
    1 ≤ (processFrame a s (FrameInput.hand h) t).1.candidate_count := by
  simp only [processFrame, S_GESTURE_CONFIRM_FRAMES]
  split
  · omega
  · omega

/-- Closed_Fist below the RESET threshold gates to NONE. -/
lemma closedFist_079_gates_to_none : rawModeOf "Closed_Fist" 0.79 = "NONE" := by
  with_unfolding_all decide

/-- A session whose confirmed mode is not RESET can never reach RESET on a
stream of Closed_Fist frames held at confidence 0.79. -/
lemma never_reset_on_low_confidence (a : ℚ → ℚ → ℚ) :
    ∀ (l : List (FrameInput × ℚ)) (s : TrackState),
      s.confirmed_mode ≠ "RESET" →
      (∀ p ∈ l, ∃ hh tt, p = (FrameInput.hand hh, tt) ∧
        hh.gesture_name = "Closed_Fist" ∧ hh.confidence = 0.79) →
      (runFrames a s l).1.confirmed_mode ≠ "RESET" := by
  intro l
  induction l with
  | nil => intro s hs _; simpa [runFrames] using hs
  | cons p rest ih =>
      intro s hs hl
      obtain ⟨hh, tt, hp, hname, hconf⟩ := hl p (List.mem_cons_self p rest)
      subst hp
      have hraw : rawModeOf hh.gesture_name hh.confidence = "NONE" := by
        rw [hname, hconf]; exact closedFist_079_gates_to_none
      have hnext :=
        confirmed_after_none_raw a s hh tt hraw
      have hns : (processFrame a s (FrameInput.hand hh) tt).1.confirmed_mode ≠
          "RESET" := by
        rcases hnext with h1 | h1 <;> rw [h1] <;> simp [hs]
      have := ih (processFrame a s (FrameInput.hand hh) tt).1 hns
        (fun q hq => hl q (List.mem_cons_of_mem _ hq))
      simpa [runFrames] using this

/-- Claim C4: the candidate mode is the label-to-mode mapping gated per
mode: below the mode's required confidence it is forced to NONE, at or
above it the mapping is kept; RESET requires 0.80 (the highest), PAN 0.30
(the lowest), every other mode 0.50.  Consequently Closed_Fist (the
RESET-mapped label) held at confidence 0.79 never confirms RESET from any
non-RESET state, while two consecutive Closed_Fist frames at 0.81 confirm
RESET from any state with a nonnegative streak. -/
theorem per_mode_confidence_gating (a : ℚ → ℚ → ℚ) :
    (∀ (label : String) (conf : ℚ),
      conf < requiredConfidence (GESTURE_MAP label) →
        rawModeOf label conf = "NONE") ∧
    (∀ (label : String) (conf : ℚ),
      requiredConfidence (GESTURE_MAP label) ≤ conf →
        rawModeOf label conf = GESTURE_MAP label) ∧
    requiredConfidence "RESET" = 0.80 ∧
    requiredConfidence "PAN" = 0.30 ∧
    (∀ m : String, m ≠ "RESET" → m ≠ "PAN" → requiredConfidence m = 0.50) ∧
    (∀ m : String, m ≠ "RESET" →
      requiredConfidence m < requiredConfidence "RESET") ∧
    (∀ m : String, m ≠ "PAN" →
      requiredConfidence "PAN" < requiredConfidence m) ∧
    (∀ (l : List (FrameInput × ℚ)) (s : TrackState),
      s.confirmed_mode ≠ "RESET" →
      (∀ p ∈ l, ∃ hh tt, p = (FrameInput.hand hh, tt) ∧
        hh.gesture_name = "Closed_Fist" ∧ hh.confidence = 0.79) →
      (runFrames a s l).1.confirmed_mode ≠ "RESET") ∧
    (∀ (s : TrackState) (h1 h2 : HandSample) (t1 t2 : ℚ),
      0 ≤ s.candidate_count →
      h1.gesture_name = "Closed_Fist" → h1.confidence = 0.81 →
      h2.gesture_name = "Closed_Fist" → h2.confidence = 0.81 →
      (processFrame a (processFrame a s (FrameInput.hand h1) t1).1
        (FrameInput.hand h2) t2).1.confirmed_mode = "RESET") := by
  have hraw81 : rawModeOf "Closed_Fist" 0.81 = "RESET" := by
    with_unfolding_all decide
  refine ⟨?_, ?_, rfl, rfl, ?_, ?_, ?_, never_reset_on_low_confidence a, ?_⟩
  · intro label conf hlt
    rw [rawModeOf, if_neg (not_le.mpr hlt)]
  · intro label conf hle
    rw [rawModeOf, if_pos hle]
  · intro m hm1 hm2
    simp [requiredConfidence, hm1, hm2, S_MIN_CONFIDENCE]
  · intro m hm1
    by_cases hm2 : m = "PAN" <;>
      simp [requiredConfidence, hm1, hm2, S_RESET_MIN_CONFIDENCE,
        S_PAN_MIN_CONFIDENCE, S_MIN_CONFIDENCE] <;> norm_num
  · intro m hm2
    by_cases hm1 : m = "RESET" <;>
      simp [requiredConfidence, hm1, hm2, S_RESET_MIN_CONFIDENCE,
        S_PAN_MIN_CONFIDENCE, S_MIN_CONFIDENCE] <;> norm_num
  · intro s h1 h2 t1 t2 hc0 hn1 hc1 hn2 hc2
    have hraw1 : rawModeOf h1.gesture_name h1.confidence = "RESET" := by
      rw [hn1, hc1]; exact hraw81
    have hraw2 : rawModeOf h2.gesture_name h2.confidence = "RESET" := by
      rw [hn2, hc2]; exact hraw81
    exact confirm_after_streak a _ h2 t2 "RESET" hraw2
      ((processFrame_hand_candidate a s h1 t1).trans hraw1)
      (processFrame_hand_count_ge_one a s h1 t1 hc0)

/-- Witness for C4: the gating facts instantiated on Closed_Fist at 0.79
and 0.81 from the initial state. -/
theorem per_mode_confidence_gating_witness :
    ((0.79 : ℚ) < requiredConfidence (GESTURE_MAP "Closed_Fist") ∧
      rawModeOf "Closed_Fist" 0.79 = "NONE") ∧
    TrackState.init.confirmed_mode ≠ "RESET" ∧
    (0 : ℤ) ≤ TrackState.init.candidate_count ∧
    (processFrame atan2degZero
      (processFrame atan2degZero TrackState.init
        (FrameInput.hand closedFist81Frame) 0).1
      (FrameInput.hand closedFist81Frame) 1).1.confirmed_mode = "RESET" :=
  ⟨⟨by with_unfolding_all decide,
    (per_mode_confidence_gating atan2degZero).1 "Closed_Fist" 0.79
      (by with_unfolding_all decide)⟩,
   by with_unfolding_all decide, by with_unfolding_all decide,
   (per_mode_confidence_gating atan2degZero).2.2.2.2.2.2.2.2
     TrackState.init closedFist81Frame closedFist81Frame 0 1
     (by with_unfolding_all decide) rfl rfl rfl rfl⟩

/-! ## Claim C5 -/

/-- The ROTATE_H branch of the delta dispatch. -/
lemma computeDeltas_rotateH (a : ℚ → ℚ → ℚ) (L8x L8y L12x L12y : ℚ)
    (s : TrackState) :
    computeDeltas a "ROTATE_H" L8x L8y L12x L12y s =
      { zeroDeltas with
        d_theta := wrapDelta (a (L12y - L8y) (L12x - L8x) - s.prev_angle) *
          (S_ROT_H_SENSITIVITY / 100) } := by
  simp [computeDeltas]

/-- The PAN branch of the delta dispatch. -/
lemma computeDeltas_pan (a : ℚ → ℚ → ℚ) (L8x L8y L12x L12y : ℚ)
    (s : TrackState) :
    computeDeltas a "PAN" L8x L8y L12x L12y s =
      { zeroDeltas with
        d_pan_x := -(L8x - s.prev_x) * S_PAN_SENSITIVITY,
        d_pan_y := -(L8y - s.prev_y) * S_PAN_SENSITIVITY } := by
  simp [computeDeltas]

/-- Claim C5: on the frame where the confirmed mode commits to a different
mode, the emitted packet carries the new mode with all five deltas zero and
`reset = false`, whatever the landmarks did; on the next processed frame
carrying the same qualifying gesture, the delta computation resumes with
the mode's formula on the filtered landmarks. -/
theorem mode_change_suppresses_one_frame (a : ℚ → ℚ → ℚ) (s : TrackState)
    (h h' : HandSample) (t t' : ℚ) (M : String)
    (hraw : rawModeOf h.gesture_name h.confidence = M)
    (hcand : s.candidate_mode = M) (hne : M ≠ s.confirmed_mode)
    (hcnt : 1 ≤ s.candidate_count)
    (hraw' : rawModeOf h'.gesture_name h'.confidence = M) :
    (processFrame a s (FrameInput.hand h) t).2 =
      some (handPacket h.gesture_name h.confidence M zeroDeltas) ∧
    (handPacket h.gesture_name h.confidence M zeroDeltas).mode = M ∧
    (handPacket h.gesture_name h.confidence M zeroDeltas).dPanX = 0 ∧
    (handPacket h.gesture_name h.confidence M zeroDeltas).dPanY = 0 ∧
    (handPacket h.gesture_name h.confidence M zeroDeltas).dTheta = 0 ∧
    (handPacket h.gesture_name h.confidence M zeroDeltas).dPhi = 0 ∧
    (handPacket h.gesture_name h.confidence M zeroDeltas).dRadius = 0 ∧
    (handPacket h.gesture_name h.confidence M zeroDeltas).reset = false ∧
    (processFrame a s (FrameInput.hand h) t).1.confirmed_mode = M ∧
    (processFrame a (processFrame a s (FrameInput.hand h) t).1
        (FrameInput.hand h') t').2 =
      some (handPacket h'.gesture_name h'.confidence M
        (computeDeltas a M
          ((processFrame a s (FrameInput.hand h) t).1.f8x.call h'.l8x t').2
          ((processFrame a s (FrameInput.hand h) t).1.f8y.call h'.l8y t').2
          ((processFrame a s (FrameInput.hand h) t).1.f12x.call h'.l12x t').2
          ((processFrame a s (FrameInput.hand h) t).1.f12y.call h'.l12y t').2
          (processFrame a s (FrameInput.hand h) t).1)) := by
  obtain ⟨hp, hz1, hz2, hz3, hz4, hz5, hz6, hz7, hcf, hcd, hct, hff⟩ :=
    commit_packet a s h t M hraw hcand hne hcnt
  have hsteady := steady_packet a (processFrame a s (FrameInput.hand h) t).1
    h' t' M hraw' hcd hcf (by rw [hct]; norm_num) hff
  exact ⟨hp, hz7, hz1, hz2, hz3, hz4, hz5, hz6, hcf, hsteady.1⟩

/-- A session state with candidate ROTATE_H at streak 1, not yet
confirmed. -/
def sCandRotH : TrackState :=
  { prev_x := 1/2, prev_y := 1/2, prev_avg_y := 1/2, prev_angle := 0,
    first_frame := false, candidate_mode := "ROTATE_H", candidate_count := 1,
    confirmed_mode := "NONE", last_active_s := 0,
    f8x := oefAt (1/2) 0 0, f8y := oefAt (1/2) 0 0,
    f12x := oefAt (1/2) 0 0, f12y := oefAt (1/2) 0 0 }

/-- A `Victory` sample at confidence 0.9. -/
def victoryFrame : HandSample :=
  { l8x := 1/2, l8y := 1/2, l12x := 3/5, l12y := 1/2,
    gesture_name := "Victory", confidence := 9/10 }

/-- Witness for C5: a pending ROTATE_H candidate commits on a second
Victory frame, emitting the zero-delta packet, and the third frame resumes
delta output. -/
theorem mode_change_witness :
    rawModeOf victoryFrame.gesture_name victoryFrame.confidence =
      "ROTATE_H" ∧
    sCandRotH.candidate_mode = "ROTATE_H" ∧
    "ROTATE_H" ≠ sCandRotH.confirmed_mode ∧
    (1 : ℤ) ≤ sCandRotH.candidate_count ∧
    ((processFrame atan2degZero sCandRotH
        (FrameInput.hand victoryFrame) (3/100)).2 =
      some (handPacket victoryFrame.gesture_name victoryFrame.confidence
        "ROTATE_H" zeroDeltas) ∧
      (handPacket victoryFrame.gesture_name victoryFrame.confidence
        "ROTATE_H" zeroDeltas).mode = "ROTATE_H" ∧
      (handPacket victoryFrame.gesture_name victoryFrame.confidence
        "ROTATE_H" zeroDeltas).dPanX = 0 ∧
      (handPacket victoryFrame.gesture_name victoryFrame.confidence
        "ROTATE_H" zeroDeltas).dPanY = 0 ∧
      (handPacket victoryFrame.gesture_name victoryFrame.confidence
        "ROTATE_H" zeroDeltas).dTheta = 0 ∧
      (handPacket victoryFrame.gesture_name victoryFrame.confidence
        "ROTATE_H" zeroDeltas).dPhi = 0 ∧
      (handPacket victoryFrame.gesture_name victoryFrame.confidence
        "ROTATE_H" zeroDeltas).dRadius = 0 ∧
      (handPacket victoryFrame.gesture_name victoryFrame.confidence
        "ROTATE_H" zeroDeltas).reset = false ∧
      (processFrame atan2degZero sCandRotH
        (FrameInput.hand victoryFrame) (3/100)).1.confirmed_mode =
          "ROTATE_H" ∧
      (processFrame atan2degZero
          (processFrame atan2degZero sCandRotH
            (FrameInput.hand victoryFrame) (3/100)).1
          (FrameInput.hand victoryFrame) (6/100)).2 =
        some (handPacket victoryFrame.gesture_name victoryFrame.confidence
          "ROTATE_H"
          (computeDeltas atan2degZero "ROTATE_H"
            ((processFrame atan2degZero sCandRotH
              (FrameInput.hand victoryFrame) (3/100)).1.f8x.call
                victoryFrame.l8x (6/100)).2
            ((processFrame atan2degZero sCandRotH
              (FrameInput.hand victoryFrame) (3/100)).1.f8y.call
                victoryFrame.l8y (6/100)).2
            ((processFrame atan2degZero sCandRotH
              (FrameInput.hand victoryFrame) (3/100)).1.f12x.call
                victoryFrame.l12x (6/100)).2
            ((processFrame atan2degZero sCandRotH
              (FrameInput.hand victoryFrame) (3/100)).1.f12y.call
                victoryFrame.l12y (6/100)).2
            (processFrame atan2degZero sCandRotH
              (FrameInput.hand victoryFrame) (3/100)).1))) :=
  ⟨by with_unfolding_all decide, rfl, by with_unfolding_all decide,
   by with_unfolding_all decide,
   mode_change_suppresses_one_frame atan2degZero sCandRotH victoryFrame
     victoryFrame (3/100) (6/100) "ROTATE_H"
     (by with_unfolding_all decide) rfl (by with_unfolding_all decide)
     (by with_unfolding_all decide) (by with_unfolding_all decide)⟩

/-! ## Claim C1 -/

/-- The constant −179° angle function, modelling `math.degrees(math.atan2)`
on a frame whose filtered index-to-middle vector sits at −179°. -/
def atan2degNeg179 : ℚ → ℚ → ℚ := fun _ _ => -179

/-- A session state with ROTATE_H confirmed at streak 2 and previous angle
179°. -/
def sRotH179 : TrackState :=
  { prev_x := 1/2, prev_y := 1/2, prev_avg_y := 1/2, prev_angle := 179,
    first_frame := false, candidate_mode := "ROTATE_H", candidate_count := 2,
    confirmed_mode := "ROTATE_H", last_active_s := 3/100,
    f8x := oefAt (1/2) (3/100) 0, f8y := oefAt (1/2) (3/100) 0,
    f12x := oefAt (3/5) (3/100) 0, f12y := oefAt (1/2) (3/100) 0 }

/-- Claim C1 (amended): on a frame processed in confirmed ROTATE_H mode
(streak at threshold, not the first confirmed frame), the emitted `dTheta`
is the wrapped signed angle difference scaled by
`ROT_H_SENSITIVITY / 100` (= 2.0, not by the sensitivity constant 200.0
itself) and rounded to 4 decimals; the wrap subtracts 360 when the raw
difference exceeds 180 and adds 360 when it is below −180, which lands
every difference other than exactly −180 in (−180, 180]; in particular a
previous angle of 179° and a current angle of −179° give a wrapped delta
of 2°, not −358°. -/
theorem rotateH_delta_formula (a : ℚ → ℚ → ℚ) (s : TrackState)
    (h : HandSample) (t : ℚ)
    (hraw : rawModeOf h.gesture_name h.confidence = "ROTATE_H")
    (hcand : s.candidate_mode = "ROTATE_H")
    (hconf : s.confirmed_mode = "ROTATE_H")
    (hcnt : 1 ≤ s.candidate_count) (hff : s.first_frame = false) :
    (processFrame a s (FrameInput.hand h) t).2.map Packet.dTheta =
      some (pyRound 4 (wrapDelta
        (a ((s.f12y.call h.l12y t).2 - (s.f8y.call h.l8y t).2)
           ((s.f12x.call h.l12x t).2 - (s.f8x.call h.l8x t).2) -
          s.prev_angle) * (S_ROT_H_SENSITIVITY / 100))) ∧
    wrapDelta ((-179 : ℚ) - 179) = 2 ∧
    ∀ d : ℚ, -360 < d → d < 360 → d ≠ -180 →
      (-180 < wrapDelta d ∧ wrapDelta d ≤ 180 ∧
        (wrapDelta d = d ∨ wrapDelta d = d - 360 ∨ wrapDelta d = d + 360)) := by
  refine ⟨?_, by with_unfolding_all decide, ?_⟩
  · have hs := steady_packet a s h t "ROTATE_H" hraw hcand hconf hcnt hff
    rw [hs.1, computeDeltas_rotateH]
    simp [handPacket]
  · intro d h1 h2 h3
    simp only [wrapDelta]
    by_cases ha : d > 180
    · rw [if_pos ha, if_neg (by linarith : ¬ (d - 360 < -180))]
      exact ⟨by linarith, by linarith, Or.inr (Or.inl rfl)⟩
    · rw [if_neg ha]
      by_cases hb : d < -180
      · rw [if_pos hb]
        exact ⟨by linarith, by linarith, Or.inr (Or.inr rfl)⟩
      · rw [if_neg hb]
        refine ⟨?_, by linarith, Or.inl rfl⟩
        rcases lt_or_eq_of_le (not_lt.mp hb) with hlt | heq
        · exact hlt
        · exact absurd heq.symm h3

/-- Counterexample for C1 as stated: with previous angle 179° and current
angle −179° in confirmed ROTATE_H mode, the emitted `dTheta` is 4 (the 2°
wrapped delta times `ROT_H_SENSITIVITY / 100` = 2.0), not the wrapped
delta times the sensitivity constant 200.0 itself (which would be 400). -/
theorem rotateH_delta_counterexample :
    (processFrame atan2degNeg179 sRotH179
        (FrameInput.hand victoryFrame) (6/100)).2.map Packet.dTheta =
      some 4 ∧
    wrapDelta ((-179 : ℚ) - 179) * S_ROT_H_SENSITIVITY = 400 ∧
    (4 : ℚ) ≠ 400 := by
  have hs := steady_packet atan2degNeg179 sRotH179 victoryFrame (6/100)
    "ROTATE_H" (by with_unfolding_all decide) rfl rfl
    (by with_unfolding_all decide) rfl
  refine ⟨?_, by with_unfolding_all decide, by norm_num⟩
  rw [hs.1, computeDeltas_rotateH]
  simp only [handPacket, Option.map_some, atan2degNeg179]
  norm_num [sRotH179, S_ROT_H_SENSITIVITY, wrapDelta, pyRound, round_eq]

/-- Witness for C1: the amended formula instantiated at the wraparound
state, where the emitted `dTheta` is 4. -/
theorem rotateH_delta_witness :
    rawModeOf victoryFrame.gesture_name victoryFrame.confidence =
      "ROTATE_H" ∧
    sRotH179.candidate_mode = "ROTATE_H" ∧
    sRotH179.confirmed_mode = "ROTATE_H" ∧
    (1 : ℤ) ≤ sRotH179.candidate_count ∧
    sRotH179.first_frame = false ∧
    ((processFrame atan2degNeg179 sRotH179
        (FrameInput.hand victoryFrame) (6/100)).2.map Packet.dTheta =
      some (pyRound 4 (wrapDelta
        (atan2degNeg179
          ((sRotH179.f12y.call victoryFrame.l12y (6/100)).2 -
            (sRotH179.f8y.call victoryFrame.l8y (6/100)).2)
          ((sRotH179.f12x.call victoryFrame.l12x (6/100)).2 -
            (sRotH179.f8x.call victoryFrame.l8x (6/100)).2) -
          sRotH179.prev_angle) * (S_ROT_H_SENSITIVITY / 100))) ∧
      wrapDelta ((-179 : ℚ) - 179) = 2 ∧
      ∀ d : ℚ, -360 < d → d < 360 → d ≠ -180 →
        (-180 < wrapDelta d ∧ wrapDelta d ≤ 180 ∧
          (wrapDelta d = d ∨ wrapDelta d = d - 360 ∨
            wrapDelta d = d + 360))) :=
  ⟨by with_unfolding_all decide, rfl, rfl, by with_unfolding_all decide, rfl,
   rotateH_delta_formula atan2degNeg179 sRotH179 victoryFrame (6/100)
     (by with_unfolding_all decide) rfl rfl
     (by with_unfolding_all decide) rfl⟩

/-! ## Claim C3 -/

/-- Any frame keeps the candidate streak at or below the confirmation
threshold. -/
lemma processFrame_count_le (a : ℚ → ℚ → ℚ) (s : TrackState)
    (inp : FrameInput) (t : ℚ)
    (hc : s.candidate_count ≤ S_GESTURE_CONFIRM_FRAMES) :
    (processFrame a s inp t).1.candidate_count ≤
      S_GESTURE_CONFIRM_FRAMES := by
  cases inp with
  | hand h =>
      simp only [processFrame, S_GESTURE_CONFIRM_FRAMES] at hc ⊢
      split <;> omega
  | noHand =>
      simp only [processFrame]
      split
      · split
        · simp [S_GESTURE_CONFIRM_FRAMES]
        · exact hc
      · exact hc

/-- Every state along a session trace keeps the streak clamped, given the
starting state does. -/
lemma traceStates_count_le (a : ℚ → ℚ → ℚ) :
    ∀ (l : List (FrameInput × ℚ)) (s : TrackState),
      s.candidate_count ≤ S_GESTURE_CONFIRM_FRAMES →
      ∀ st ∈ traceStates a s l,
        st.candidate_count ≤ S_GESTURE_CONFIRM_FRAMES := by
  intro l
  induction l with
  | nil =>
      intro s hs st hst
      simp only [traceStates, List.mem_singleton] at hst
      exact hst ▸ hs
  | cons p rest ih =>
      intro s hs st hst
      obtain ⟨inp, t⟩ := p
      simp only [traceStates, List.mem_cons] at hst
      rcases hst with rfl | hmem
      · exact hs
      · exact ih _ (processFrame_count_le a s inp t hs) st hmem

/-- A hand frame always leaves the candidate streak at or below the
threshold, whatever the incoming streak was. -/
lemma processFrame_hand_count_le (a : ℚ → ℚ → ℚ) (s : TrackState)
    (h : HandSample) (t : ℚ) :
    (processFrame a s (FrameInput.hand h) t).1.candidate_count ≤
      S_GESTURE_CONFIRM_FRAMES := by
  simp only [processFrame, S_GESTURE_CONFIRM_FRAMES]
  split <;> omega

/-- On any hand frame, either the confirmed mode is unchanged, or the
commit fired with the streak at the threshold and a candidate differing
from the old confirmed mode. -/
lemma processFrame_hand_commit_cases (a : ℚ → ℚ → ℚ) (s : TrackState)
    (h : HandSample) (t : ℚ) :
    (processFrame a s (FrameInput.hand h) t).1.confirmed_mode =
        s.confirmed_mode ∨
    (S_GESTURE_CONFIRM_FRAMES ≤
        (processFrame a s (FrameInput.hand h) t).1.candidate_count ∧
      (processFrame a s (FrameInput.hand h) t).1.candidate_mode ≠
        s.confirmed_mode ∧
      (processFrame a s (FrameInput.hand h) t).1.confirmed_mode =
        (processFrame a s (FrameInput.hand h) t).1.candidate_mode) := by
  simp only [processFrame]
  by_cases hcm : S_GESTURE_CONFIRM_FRAMES ≤
      (if rawModeOf h.gesture_name h.confidence = s.candidate_mode then
        min (s.candidate_count + 1) S_GESTURE_CONFIRM_FRAMES else 1) ∧
      (if rawModeOf h.gesture_name h.confidence = s.candidate_mode then
        s.candidate_mode else rawModeOf h.gesture_name h.confidence) ≠
        s.confirmed_mode
  · right
    rw [if_pos hcm]
    exact ⟨hcm.1, hcm.2, rfl⟩
  · left
    rw [if_neg hcm]

/-- A hand frame that changes the confirmed mode leaves the streak exactly
at the threshold. -/
lemma count_eq_two_of_confirmed_change (a : ℚ → ℚ → ℚ) (s : TrackState)
    (h : HandSample) (t : ℚ)
    (hch : (processFrame a s (FrameInput.hand h) t).1.confirmed_mode ≠
      s.confirmed_mode) :
    (processFrame a s (FrameInput.hand h) t).1.candidate_count =
      S_GESTURE_CONFIRM_FRAMES := by
  rcases processFrame_hand_commit_cases a s h t with h1 | h1
  · exact absurd h1 hch
  · have hle := processFrame_hand_count_le a s h t
    omega

/-- Characterization of every step on which the confirmed mode changes:
either a hand frame committed a candidate that reached the threshold and
differs from the old confirmed mode, or the inactivity branch of a no-hand
frame reset the mode to NONE and the streak to 0. -/
lemma confirmed_change_characterization (a : ℚ → ℚ → ℚ) (s : TrackState)
    (inp : FrameInput) (t : ℚ)
    (hch : (processFrame a s inp t).1.confirmed_mode ≠ s.confirmed_mode) :
    ((∃ h, inp = FrameInput.hand h) ∧
      (processFrame a s inp t).1.candidate_count =
        S_GESTURE_CONFIRM_FRAMES ∧
      (processFrame a s inp t).1.candidate_mode ≠ s.confirmed_mode ∧
      (processFrame a s inp t).1.confirmed_mode =
        (processFrame a s inp t).1.candidate_mode) ∨
    (inp = FrameInput.noHand ∧
      (processFrame a s inp t).1.confirmed_mode = "NONE" ∧
      (processFrame a s inp t).1.candidate_count = 0) := by
  cases inp with
  | hand h =>
      left
      have hcc : (processFrame a s (FrameInput.hand h) t).1.confirmed_mode =
          (processFrame a s (FrameInput.hand h) t).1.candidate_mode := by
        rcases processFrame_hand_confirmed_cases a s h t with h1 | h1
        · exact absurd h1 hch
        · exact h1
      refine ⟨⟨h, rfl⟩, count_eq_two_of_confirmed_change a s h t hch,
        ?_, hcc⟩
      rw [← hcc]
      exact hch
  | noHand =>
      right
      by_cases h1 : (t - s.last_active_s) * 1000 > S_INACTIVE_MS
      · by_cases h2 : s.confirmed_mode = "NONE"
        · rw [processFrame_noHand_idle a s t h2] at hch
          exact absurd rfl hch
        · have h2' : s.confirmed_mode ≠ "NONE" := h2
          refine ⟨rfl, ?_, ?_⟩ <;> simp [processFrame, h1, h2']
      · have hid : processFrame a s FrameInput.noHand t = (s, none) := by
          simp [processFrame, h1]
        rw [hid] at hch
        exact absurd rfl hch

/-- Claim C3 (amended): along every session trace from the initial state
the candidate streak never exceeds the confirmation threshold, and the
confirmed mode changes only on a hand frame whose candidate reached the
threshold and differs from the old confirmed mode — or on an
inactivity-timeout no-hand frame, which forces it to NONE with streak 0.
(The original claim omitted the inactivity-reset case; see the
counterexample.) -/
theorem streak_clamped_and_commit_guarded (a : ℚ → ℚ → ℚ)
    (l : List (FrameInput × ℚ)) :
    (∀ st ∈ traceStates a TrackState.init l,
      st.candidate_count ≤ S_GESTURE_CONFIRM_FRAMES) ∧
    (∀ (s : TrackState) (inp : FrameInput) (t : ℚ),
      (processFrame a s inp t).1.confirmed_mode ≠ s.confirmed_mode →
      ((∃ h, inp = FrameInput.hand h) ∧
        (processFrame a s inp t).1.candidate_count =
          S_GESTURE_CONFIRM_FRAMES ∧
        (processFrame a s inp t).1.candidate_mode ≠ s.confirmed_mode ∧
        (processFrame a s inp t).1.confirmed_mode =
          (processFrame a s inp t).1.candidate_mode) ∨
      (inp = FrameInput.noHand ∧
        (processFrame a s inp t).1.confirmed_mode = "NONE" ∧
        (processFrame a s inp t).1.candidate_count = 0)) :=
  ⟨traceStates_count_le a l TrackState.init (by norm_num [TrackState.init,
      S_GESTURE_CONFIRM_FRAMES]),
   fun s inp t hch => confirmed_change_characterization a s inp t hch⟩

/-- The session state after one Victory frame from the initial state. -/
def sV1 : TrackState :=
  { prev_x := 1/2, prev_y := 1/2, prev_avg_y := 1/2, prev_angle := 0,
    first_frame := false, candidate_mode := "ROTATE_H", candidate_count := 1,
    confirmed_mode := "NONE", last_active_s := 0,
    f8x := oefAt (1/2) 0 0, f8y := oefAt (1/2) 0 0,
    f12x := oefAt (3/5) 0 0, f12y := oefAt (1/2) 0 0 }

/-- The session state after two Victory frames from the initial state:
ROTATE_H confirmed with the streak at the threshold. -/
def sV2 : TrackState :=
  { prev_x := 1/2, prev_y := 1/2, prev_avg_y := 1/2, prev_angle := 0,
    first_frame := false, candidate_mode := "ROTATE_H", candidate_count := 2,
    confirmed_mode := "ROTATE_H", last_active_s := 3/100,
    f8x := oefAt (1/2) (3/100) 0, f8y := oefAt (1/2) (3/100) 0,
    f12x := oefAt (3/5) (3/100) 0, f12y := oefAt (1/2) (3/100) 0 }

/-- Counterexample for C3 as stated: in the session reached by two Victory
frames, a no-hand frame past the inactivity window changes `confirmed_mode`
(ROTATE_H → NONE) on a step where `candidate_mode` does NOT differ from
`confirmed_mode` (both are ROTATE_H before the step) and where the
post-step streak (0) is below the threshold — so the claimed "changes only
when the streak reached the threshold AND candidate ≠ confirmed" fails. -/
theorem streak_claim_counterexample :
    (processFrame atan2degZero TrackState.init
      (FrameInput.hand victoryFrame) 0).1 = sV1 ∧
    (processFrame atan2degZero sV1
      (FrameInput.hand victoryFrame) (3/100)).1 = sV2 ∧
    sV2.confirmed_mode = "ROTATE_H" ∧
    sV2.candidate_mode = sV2.confirmed_mode ∧
    ((2 : ℚ) - sV2.last_active_s) * 1000 > S_INACTIVE_MS ∧
    (processFrame atan2degZero sV2 FrameInput.noHand 2).1.confirmed_mode ≠
      sV2.confirmed_mode ∧
    ¬(sV2.candidate_mode ≠ sV2.confirmed_mode) ∧
    (processFrame atan2degZero sV2 FrameInput.noHand 2).1.candidate_count <
      S_GESTURE_CONFIRM_FRAMES := by
  refine ⟨by with_unfolding_all decide, ?_, by with_unfolding_all decide,
    by with_unfolding_all decide, by with_unfolding_all decide,
    by with_unfolding_all decide, by with_unfolding_all decide,
    by with_unfolding_all decide⟩
  have : processFrame atan2degZero sV1 (FrameInput.hand victoryFrame)
      (3/100) = (sV2, some (handPacket "Victory" (9/10) "ROTATE_H"
        zeroDeltas)) := by
    norm_num +decide [processFrame, sV1, sV2, oefAt, OneEuroFilter.call,
      oefDt, oefAlpha, mathPi, abs_of_nonpos, abs_of_nonneg, victoryFrame,
      rawModeOf, requiredConfidence, GESTURE_MAP, computeDeltas, zeroDeltas,
      wrapDelta, pyRound, handPacket, atan2degZero, S_PAN_SENSITIVITY,
      S_ROT_H_SENSITIVITY, S_ROT_V_SENSITIVITY, S_OEF_MIN_CUTOFF,
      S_OEF_BETA, S_OEF_D_CUTOFF, S_GESTURE_CONFIRM_FRAMES,
      S_MIN_CONFIDENCE, S_RESET_MIN_CONFIDENCE, S_PAN_MIN_CONFIDENCE,
      S_INACTIVE_MS, S_THUMB_ZOOM_SPEED, TrackState.mk.injEq,
      Packet.mk.injEq, OneEuroFilter.mk.injEq, Prod.ext_iff,
      Option.some.injEq, min_def]
  rw [this]

/-- Witness for C3: the clamped-streak invariant on a concrete two-frame
trace, and the change characterization instantiated on the commit step out
of `sCandRotH`. -/
theorem streak_clamped_witness :
    (∀ st ∈ traceStates atan2degZero TrackState.init
        [(FrameInput.hand victoryFrame, 0)],
      st.candidate_count ≤ S_GESTURE_CONFIRM_FRAMES) ∧
    (processFrame atan2degZero sCandRotH
        (FrameInput.hand victoryFrame) (3/100)).1.confirmed_mode ≠
      sCandRotH.confirmed_mode ∧
    (((∃ h, FrameInput.hand victoryFrame = FrameInput.hand h) ∧
      (processFrame atan2degZero sCandRotH
        (FrameInput.hand victoryFrame) (3/100)).1.candidate_count =
          S_GESTURE_CONFIRM_FRAMES ∧
      (processFrame atan2degZero sCandRotH
        (FrameInput.hand victoryFrame) (3/100)).1.candidate_mode ≠
          sCandRotH.confirmed_mode ∧
      (processFrame atan2degZero sCandRotH
        (FrameInput.hand victoryFrame) (3/100)).1.confirmed_mode =
        (processFrame atan2degZero sCandRotH
          (FrameInput.hand victoryFrame) (3/100)).1.candidate_mode) ∨
     (FrameInput.hand victoryFrame = FrameInput.noHand ∧
      (processFrame atan2degZero sCandRotH
        (FrameInput.hand victoryFrame) (3/100)).1.confirmed_mode =
          "NONE" ∧
      (processFrame atan2degZero sCandRotH
        (FrameInput.hand victoryFrame) (3/100)).1.candidate_count = 0)) :=
  ⟨(streak_clamped_and_commit_guarded atan2degZero
      [(FrameInput.hand victoryFrame, 0)]).1,
   by with_unfolding_all decide,
   (streak_clamped_and_commit_guarded atan2degZero
      [(FrameInput.hand victoryFrame, 0)]).2 sCandRotH
      (FrameInput.hand victoryFrame) (3/100)
      (by with_unfolding_all decide)⟩

/-! ## Claim C6 -/

/-- Bounds on a decimal-rounded value from bounds on the scaled input. -/
lemma pyRound_bounds (n : ℕ) (q lo hi : ℚ) (h1 : lo ≤ q * 10 ^ n - 1/2)
    (h2 : q * 10 ^ n + 1/2 ≤ hi) :
    lo / 10 ^ n ≤ pyRound n q ∧ pyRound n q ≤ hi / 10 ^ n := by
  obtain ⟨hr1, hr2⟩ := abs_le.mp (abs_sub_round (q * 10 ^ n))
  have hp : (0 : ℚ) < 10 ^ n := by positivity
  constructor
  · rw [pyRound]
    exact (div_le_div_iff_of_pos_right hp).2 (by linarith)
  · rw [pyRound]
    exact (div_le_div_iff_of_pos_right hp).2 (by linarith)

/-- The end-to-end PAN scenario's hand frame: `Pointing_Up` at confidence
0.95 with the index tip at abscissa `x`. -/
def c6frame (x : ℚ) : HandSample :=
  { l8x := x, l8y := 1/2, l12x := 1/2, l12y := 1/2,
    gesture_name := "Pointing_Up", confidence := 19/20 }

/-- The scenario's three frames: index tip at 0.50, 0.50, 0.40, 30 ms
apart. -/
def c6frames : List (FrameInput × ℚ) :=
  [(FrameInput.hand (c6frame (1/2)), 0),
   (FrameInput.hand (c6frame (1/2)), 3/100),
   (FrameInput.hand (c6frame (2/5)), 3/50)]

/-- Scenario state after frame 1. -/
def c6s1 : TrackState :=
  { prev_x := 1/2, prev_y := 1/2, prev_avg_y := 1/2, prev_angle := 0,
    first_frame := false, candidate_mode := "PAN", candidate_count := 1,
    confirmed_mode := "NONE", last_active_s := 0,
    f8x := oefAt (1/2) 0 0, f8y := oefAt (1/2) 0 0,
    f12x := oefAt (1/2) 0 0, f12y := oefAt (1/2) 0 0 }

/-- Scenario state after frame 2: PAN confirmed. -/
def c6s2 : TrackState :=
  { prev_x := 1/2, prev_y := 1/2, prev_avg_y := 1/2, prev_angle := 0,
    first_frame := false, candidate_mode := "PAN", candidate_count := 2,
    confirmed_mode := "PAN", last_active_s := 3/100,
    f8x := oefAt (1/2) (3/100) 0, f8y := oefAt (1/2) (3/100) 0,
    f12x := oefAt (1/2) (3/100) 0, f12y := oefAt (1/2) (3/100) 0 }

/-- Scenario packet of frame 1 (mode still NONE). -/
def c6p1 : Packet := handPacket "Pointing_Up" (19/20) "NONE" zeroDeltas

/-- Scenario packet of frame 2 (PAN just confirmed, zero deltas). -/
def c6p2 : Packet := handPacket "Pointing_Up" (19/20) "PAN" zeroDeltas

/-- Scenario packet of frame 3: the PAN deltas of the filtered motion. -/
def c6p3 : Packet :=
  handPacket "Pointing_Up" (19/20) "PAN"
    (computeDeltas atan2degZero "PAN"
      ((c6s2.f8x.call (2/5) (3/50)).2) ((c6s2.f8y.call (1/2) (3/50)).2)
      ((c6s2.f12x.call (1/2) (3/50)).2) ((c6s2.f12y.call (1/2) (3/50)).2)
      c6s2)

/-- Frame 1 of the scenario from the initial state. -/
lemma c6_step1 :
    processFrame atan2degZero TrackState.init
      (FrameInput.hand (c6frame (1/2))) 0 = (c6s1, some c6p1) := by
  with_unfolding_all decide

/-- Frame 2 of the scenario: constant input keeps the filters at 1/2 and
PAN commits. -/
lemma c6_step2 :
    processFrame atan2degZero c6s1
      (FrameInput.hand (c6frame (1/2))) (3/100) = (c6s2, some c6p2) := by
  norm_num +decide [processFrame, c6s1, c6s2, c6p2, oefAt,
    OneEuroFilter.call, oefDt, oefAlpha, mathPi, abs_of_nonpos,
    abs_of_nonneg, c6frame, rawModeOf, requiredConfidence, GESTURE_MAP,
    computeDeltas, zeroDeltas, wrapDelta, pyRound, handPacket, atan2degZero,
    S_PAN_SENSITIVITY, S_ROT_H_SENSITIVITY, S_ROT_V_SENSITIVITY,
    S_OEF_MIN_CUTOFF, S_OEF_BETA, S_OEF_D_CUTOFF, S_GESTURE_CONFIRM_FRAMES,
    S_MIN_CONFIDENCE, S_RESET_MIN_CONFIDENCE, S_PAN_MIN_CONFIDENCE,
    S_INACTIVE_MS, S_THUMB_ZOOM_SPEED, TrackState.mk.injEq, Packet.mk.injEq,
    OneEuroFilter.mk.injEq, Prod.ext_iff, Option.some.injEq, min_def]

/-- Frame 3 of the scenario emits `c6p3`. -/
lemma c6_step3 :
    (processFrame atan2degZero c6s2
      (FrameInput.hand (c6frame (2/5))) (3/50)).2 = some c6p3 := by
  have hs := (steady_packet atan2degZero c6s2 (c6frame (2/5)) (3/50) "PAN"
    (by with_unfolding_all decide) rfl rfl (by norm_num [c6s2]) rfl).1
  simpa [c6frame, c6p3] using hs

/-- The packet stream of the scenario run. -/
lemma c6_packets :
    (runFrames atan2degZero TrackState.init c6frames).2 =
      [c6p1, c6p2, c6p3] := by
  simp only [c6frames, runFrames, c6_step1, c6_step2, c6_step3,
    Option.toList_some, List.append_nil, List.nil_append,
    List.cons_append, List.singleton_append]

/-- The frame-3 filtered index-tip ordinate is unchanged at 1/2. -/
lemma c6_f8y_const : (c6s2.f8y.call (1/2) (3/50)).2 = 1/2 := by
  norm_num [c6s2, oefAt, OneEuroFilter.call, oefDt, oefAlpha, mathPi,
    abs_of_nonpos, abs_of_nonneg, S_OEF_MIN_CUTOFF, S_OEF_BETA,
    S_OEF_D_CUTOFF]

/-- Bounds on the frame-3 `dPanX`: the rounded value is strictly between 0
and 0.35 (its exact value is 0.05723). -/
lemma c6_dPanX_bounds :
    0 < pyRound 5 (-((c6s2.f8x.call (2/5) (3/50)).2 - c6s2.prev_x) *
        S_PAN_SENSITIVITY) ∧
    pyRound 5 (-((c6s2.f8x.call (2/5) (3/50)).2 - c6s2.prev_x) *
        S_PAN_SENSITIVITY) < 0.35 := by
  have hb := pyRound_bounds 5
    (-((c6s2.f8x.call (2/5) (3/50)).2 - c6s2.prev_x) * S_PAN_SENSITIVITY)
    5722 5725
    (by norm_num [c6s2, oefAt, OneEuroFilter.call, oefDt, oefAlpha, mathPi,
      abs_of_nonpos, abs_of_nonneg, S_PAN_SENSITIVITY, S_OEF_MIN_CUTOFF,
      S_OEF_BETA, S_OEF_D_CUTOFF])
    (by norm_num [c6s2, oefAt, OneEuroFilter.call, oefDt, oefAlpha, mathPi,
      abs_of_nonpos, abs_of_nonneg, S_PAN_SENSITIVITY, S_OEF_MIN_CUTOFF,
      S_OEF_BETA, S_OEF_D_CUTOFF])
  constructor
  · exact lt_of_lt_of_le (by norm_num) hb.1
  · exact lt_of_le_of_lt hb.2 (by norm_num)

/-- Claim C6 (amended): in confirmed PAN mode the emitted pan deltas are
the sign-inverted frame-to-frame displacement of the FILTERED index tip
times the pan sensitivity 3.5, rounded to 5 decimals; in the spec's
end-to-end scenario (Pointing_Up at 0.95, index tip 0.50 → 0.50 → 0.40 at
30 ms steps) the mode is PAN after frame 2 and frame 3 emits dPanY = 0 and
a dPanX strictly between 0 and 0.35 — not 0.35, because the adaptive
filter smooths the sudden 0.1 jump, so the filtered displacement is smaller
than the raw one. -/
theorem pan_delta_formula_and_scenario (a : ℚ → ℚ → ℚ) (s : TrackState)
    (h : HandSample) (t : ℚ)
    (hraw : rawModeOf h.gesture_name h.confidence = "PAN")
    (hcand : s.candidate_mode = "PAN") (hconf : s.confirmed_mode = "PAN")
    (hcnt : 1 ≤ s.candidate_count) (hff : s.first_frame = false) :
    (processFrame a s (FrameInput.hand h) t).2.map Packet.dPanX =
      some (pyRound 5 (-((s.f8x.call h.l8x t).2 - s.prev_x) *
        S_PAN_SENSITIVITY)) ∧
    (processFrame a s (FrameInput.hand h) t).2.map Packet.dPanY =
      some (pyRound 5 (-((s.f8y.call h.l8y t).2 - s.prev_y) *
        S_PAN_SENSITIVITY)) ∧
    (runFrames atan2degZero TrackState.init c6frames).2.map Packet.mode =
      ["NONE", "PAN", "PAN"] ∧
    (runFrames atan2degZero TrackState.init c6frames).2[2]?.map
        Packet.dPanY = some 0 ∧
    ∃ p3 : Packet,
      (runFrames atan2degZero TrackState.init c6frames).2[2]? = some p3 ∧
      0 < p3.dPanX ∧ p3.dPanX < 0.35 := by
  have hs := (steady_packet a s h t "PAN" hraw hcand hconf hcnt hff).1
  refine ⟨?_, ?_, ?_, ?_, c6p3, ?_, ?_, ?_⟩
  · rw [hs, computeDeltas_pan]
    simp [handPacket]
  · rw [hs, computeDeltas_pan]
    simp [handPacket]
  · rw [c6_packets]
    simp [c6p1, c6p2, c6p3, handPacket]
  · rw [c6_packets]
    simp only [List.getElem?_cons_succ, List.getElem?_cons_zero,
      Option.map_some']
    rw [c6p3, computeDeltas_pan, c6_f8y_const]
    simp [handPacket, c6s2]
  · rw [c6_packets]
    rfl
  · have := c6_dPanX_bounds.1
    rw [c6p3, computeDeltas_pan]
    simpa [handPacket] using this
  · have := c6_dPanX_bounds.2
    rw [c6p3, computeDeltas_pan]
    simpa [handPacket] using this

/-- Counterexample for C6 as stated: frame 3 of the scenario does not emit
`dPanX = +0.35`; the adaptive filter smooths the jump, so the emitted value
(0.05723) is strictly below 0.35. -/
theorem pan_scenario_counterexample :
    (runFrames atan2degZero TrackState.init c6frames).2[1]?.map
        Packet.mode = some "PAN" ∧
    (runFrames atan2degZero TrackState.init c6frames).2[2]?.map
        Packet.dPanX ≠ some 0.35 ∧
    (0.35 : ℚ) = -(2/5 - 1/2) * S_PAN_SENSITIVITY := by
  refine ⟨?_, ?_, by norm_num [S_PAN_SENSITIVITY]⟩
  · rw [c6_packets]
    simp [c6p2, handPacket]
  · rw [c6_packets]
    have h2 := c6_dPanX_bounds.2
    rw [c6p3, computeDeltas_pan]
    simp only [List.getElem?_cons_succ, List.getElem?_cons_zero,
      Option.map_some', ne_eq, Option.some.injEq, handPacket]
    intro heq
    rw [heq] at h2
    norm_num at h2

/-- Witness for C6: the PAN delta formula instantiated on frame 3 of the
scenario state. -/
theorem pan_delta_witness :
    rawModeOf (c6frame (2/5)).gesture_name (c6frame (2/5)).confidence =
      "PAN" ∧
    c6s2.candidate_mode = "PAN" ∧ c6s2.confirmed_mode = "PAN" ∧
    (1 : ℤ) ≤ c6s2.candidate_count ∧ c6s2.first_frame = false ∧
    ((processFrame atan2degZero c6s2
        (FrameInput.hand (c6frame (2/5))) (3/50)).2.map Packet.dPanX =
      some (pyRound 5 (-((c6s2.f8x.call (c6frame (2/5)).l8x (3/50)).2 -
        c6s2.prev_x) * S_PAN_SENSITIVITY)) ∧
      (processFrame atan2degZero c6s2
        (FrameInput.hand (c6frame (2/5))) (3/50)).2.map Packet.dPanY =
      some (pyRound 5 (-((c6s2.f8y.call (c6frame (2/5)).l8y (3/50)).2 -
        c6s2.prev_y) * S_PAN_SENSITIVITY)) ∧
      (runFrames atan2degZero TrackState.init c6frames).2.map Packet.mode =
        ["NONE", "PAN", "PAN"] ∧
      (runFrames atan2degZero TrackState.init c6frames).2[2]?.map
          Packet.dPanY = some 0 ∧
      ∃ p3 : Packet,
        (runFrames atan2degZero TrackState.init c6frames).2[2]? =
          some p3 ∧
        0 < p3.dPanX ∧ p3.dPanX < 0.35) :=
  ⟨by with_unfolding_all decide, rfl, rfl, by with_unfolding_all decide,
   rfl,
   pan_delta_formula_and_scenario atan2degZero c6s2 (c6frame (2/5)) (3/50)
     (by with_unfolding_all decide) rfl rfl
     (by with_unfolding_all decide) rfl⟩

/-! ## Claim C8 -/

/-- Claim C8: on every processed hand frame — first frames, unconfirmed
streaks and NONE mode included — the previous-frame fields are
unconditionally overwritten from the current filtered landmarks: `prev_x`
and `prev_y` from the filtered index tip, `prev_avg_y` from the average of
the two filtered tip y values, and `prev_angle` from the atan2 angle (in
degrees) of the index-to-middle vector of the filtered tips. -/
theorem prev_fields_unconditionally_updated (a : ℚ → ℚ → ℚ)
    (s : TrackState) (h : HandSample) (t : ℚ) :
    (processFrame a s (FrameInput.hand h) t).1.prev_x =
        (s.f8x.call h.l8x t).2 ∧
    (processFrame a s (FrameInput.hand h) t).1.prev_y =
        (s.f8y.call h.l8y t).2 ∧
    (processFrame a s (FrameInput.hand h) t).1.prev_avg_y =
        ((s.f8y.call h.l8y t).2 + (s.f12y.call h.l12y t).2) / 2 ∧
    (processFrame a s (FrameInput.hand h) t).1.prev_angle =
        a ((s.f12y.call h.l12y t).2 - (s.f8y.call h.l8y t).2)
          ((s.f12x.call h.l12x t).2 - (s.f8x.call h.l8x t).2) ∧
    (processFrame a s (FrameInput.hand h) t).1.first_frame = false ∧
    (processFrame a s (FrameInput.hand h) t).1.last_active_s = t := by
  simp [processFrame]

/-! ## Claim C9 -/

/-- Claim C9: the filter update is total for all real inputs, including
duplicate or decreasing timestamps: the internal time delta is floored at
1e-6, so it is strictly positive, and every divisor appearing in the
update — the time delta used for the raw derivative, `2*pi*d_cutoff` and
`1 + tau_d/dt` inside the derivative smoother's coefficient, the adaptive
cutoff, `2*pi*cutoff` and `1 + tau/dt` inside the blending coefficient —
is strictly positive; the update always stores and returns a well-defined
value. -/
theorem filter_divisors_positive (f : OneEuroFilter) (x t xv tv : ℚ)
    (hx : f.x = some xv) (ht : f.t = some tv)
    (hmc : 0 < f.min_cutoff) (hb : 0 ≤ f.beta) (hdc : 0 < f.d_cutoff) :
    (1 / 1000000 : ℚ) ≤ oefDt tv t ∧ 0 < oefDt tv t ∧
    0 < 2 * mathPi * f.d_cutoff ∧
    0 < 1 + (1 / (2 * mathPi * f.d_cutoff)) / oefDt tv t ∧
    0 < f.min_cutoff + f.beta *
      |oefAlpha f.d_cutoff (oefDt tv t) * ((x - xv) / oefDt tv t) +
        (1 - oefAlpha f.d_cutoff (oefDt tv t)) * f.dx| ∧
    0 < 2 * mathPi * (f.min_cutoff + f.beta *
      |oefAlpha f.d_cutoff (oefDt tv t) * ((x - xv) / oefDt tv t) +
        (1 - oefAlpha f.d_cutoff (oefDt tv t)) * f.dx|) ∧
    0 < 1 + (1 / (2 * mathPi * (f.min_cutoff + f.beta *
      |oefAlpha f.d_cutoff (oefDt tv t) * ((x - xv) / oefDt tv t) +
        (1 - oefAlpha f.d_cutoff (oefDt tv t)) * f.dx|))) / oefDt tv t ∧
    (f.call x t).1.x = some ((f.call x t).2) ∧
    (f.call x t).1.t = some t := by
  have hdt := oefDt_pos tv t
  have hcut : 0 < f.min_cutoff + f.beta *
      |oefAlpha f.d_cutoff (oefDt tv t) * ((x - xv) / oefDt tv t) +
        (1 - oefAlpha f.d_cutoff (oefDt tv t)) * f.dx| :=
    lt_of_lt_of_le hmc (le_add_of_nonneg_right
      (mul_nonneg hb (abs_nonneg _)))
  refine ⟨oefDt_ge tv t, hdt, twoPiMul_pos hdc,
    oefAlpha_den_pos hdc hdt, hcut, twoPiMul_pos hcut,
    oefAlpha_den_pos hcut hdt, ?_, ?_⟩ <;>
    simp [OneEuroFilter.call, hx, ht]

/-- Witness for C9: a filter holding a sample at time 0 and updated with a
DECREASING timestamp −1; the floored time delta is still positive. -/
theorem filter_divisors_witness :
    (oefAt 0 0 0).x = some 0 ∧ (oefAt 0 0 0).t = some 0 ∧
    0 < (oefAt 0 0 0).min_cutoff ∧ 0 ≤ (oefAt 0 0 0).beta ∧
    0 < (oefAt 0 0 0).d_cutoff ∧
    ((1 / 1000000 : ℚ) ≤ oefDt 0 (-1) ∧ 0 < oefDt 0 (-1) ∧
      0 < 2 * mathPi * (oefAt 0 0 0).d_cutoff ∧
      0 < 1 + (1 / (2 * mathPi * (oefAt 0 0 0).d_cutoff)) / oefDt 0 (-1) ∧
      0 < (oefAt 0 0 0).min_cutoff + (oefAt 0 0 0).beta *
        |oefAlpha (oefAt 0 0 0).d_cutoff (oefDt 0 (-1)) *
            (((2/5 : ℚ) - 0) / oefDt 0 (-1)) +
          (1 - oefAlpha (oefAt 0 0 0).d_cutoff (oefDt 0 (-1))) *
            (oefAt 0 0 0).dx| ∧
      0 < 2 * mathPi * ((oefAt 0 0 0).min_cutoff + (oefAt 0 0 0).beta *
        |oefAlpha (oefAt 0 0 0).d_cutoff (oefDt 0 (-1)) *
            (((2/5 : ℚ) - 0) / oefDt 0 (-1)) +
          (1 - oefAlpha (oefAt 0 0 0).d_cutoff (oefDt 0 (-1))) *
            (oefAt 0 0 0).dx|) ∧
      0 < 1 + (1 / (2 * mathPi * ((oefAt 0 0 0).min_cutoff +
          (oefAt 0 0 0).beta *
        |oefAlpha (oefAt 0 0 0).d_cutoff (oefDt 0 (-1)) *
            (((2/5 : ℚ) - 0) / oefDt 0 (-1)) +
          (1 - oefAlpha (oefAt 0 0 0).d_cutoff (oefDt 0 (-1))) *
            (oefAt 0 0 0).dx|))) / oefDt 0 (-1) ∧
      ((oefAt 0 0 0).call (2/5) (-1)).1.x =
        some (((oefAt 0 0 0).call (2/5) (-1)).2) ∧
      ((oefAt 0 0 0).call (2/5) (-1)).1.t = some (-1)) :=
  ⟨rfl, rfl, by norm_num [oefAt, S_OEF_MIN_CUTOFF],
   by norm_num [oefAt, S_OEF_BETA], by norm_num [oefAt, S_OEF_D_CUTOFF],
   filter_divisors_positive (oefAt 0 0 0) (2/5) (-1) 0 0 rfl rfl
     (by norm_num [oefAt, S_OEF_MIN_CUTOFF])
     (by norm_num [oefAt, S_OEF_BETA])
     (by norm_num [oefAt, S_OEF_D_CUTOFF])⟩

/-! ## Claim C7 -/

/-- The filter state after `n` repeated calls with the constant input `c`
at a fixed time step `dt`, starting from the stored-sample time `tv`. -/
def oefIter (f : OneEuroFilter) (c tv dt : ℚ) : ℕ → OneEuroFilter
  | 0 => f
  | n + 1 => ((oefIter f c tv dt n).call c (tv + (n + 1 : ℕ) * dt)).1

/-- Distance of the filter's stored output from the constant input after
`n` calls. -/
def oefErr (f : OneEuroFilter) (c tv dt : ℚ) (n : ℕ) : ℚ :=
  |((oefIter f c tv dt n).x.getD c) - c|

/-- The time delta seen on every call of the constant-input iteration. -/
lemma oefDt_shift (tv dt : ℚ) (n : ℕ) :
    oefDt (tv + n * dt) (tv + (n + 1 : ℕ) * dt) = max dt (1/1000000) := by
  simp only [oefDt]
  congr 1
  push_cast
  ring

/-- One constant-input call: the state stays well-formed, the configuration
is unchanged, and the distance to the input contracts by at least the base
smoothing coefficient at that time delta. -/
lemma call_const_step (g : OneEuroFilter) (yv u c t : ℚ)
    (hx : g.x = some yv) (ht : g.t = some u)
    (hmc : 0 < g.min_cutoff) (hb : 0 ≤ g.beta) :
    (g.call c t).1.x = some ((g.call c t).2) ∧
    (g.call c t).1.t = some t ∧
    (g.call c t).1.min_cutoff = g.min_cutoff ∧
    (g.call c t).1.beta = g.beta ∧
    (g.call c t).1.d_cutoff = g.d_cutoff ∧
    |(g.call c t).2 - c| ≤
      (1 - oefAlpha g.min_cutoff (oefDt u t)) * |yv - c| := by
  have hdt := oefDt_pos u t
  refine ⟨?_, ?_, ?_, ?_, ?_, ?_⟩
  · simp [OneEuroFilter.call, hx, ht]
  · simp [OneEuroFilter.call, hx, ht]
  · simp [OneEuroFilter.call, hx, ht]
  · simp [OneEuroFilter.call, hx, ht]
  · simp [OneEuroFilter.call, hx, ht]
  simp only [OneEuroFilter.call, hx, ht]
  set dt2 := oefDt u t with hdt2
  set dxh := oefAlpha g.d_cutoff dt2 * ((c - yv) / dt2) +
    (1 - oefAlpha g.d_cutoff dt2) * g.dx with hdxh
  set cut := g.min_cutoff + g.beta * |dxh| with hcut
  set aa := oefAlpha cut dt2 with haa
  have hcutge : g.min_cutoff ≤ cut :=
    le_add_of_nonneg_right (mul_nonneg hb (abs_nonneg _))
  have hcutpos : 0 < cut := lt_of_lt_of_le hmc hcutge
  have ha1 : aa < 1 := oefAlpha_lt_one hcutpos hdt
  have ha0 : oefAlpha g.min_cutoff dt2 ≤ aa := oefAlpha_mono hmc hcutge hdt
  calc |aa * c + (1 - aa) * yv - c|
      = |(1 - aa) * (yv - c)| := by
        rw [show aa * c + (1 - aa) * yv - c = (1 - aa) * (yv - c) from
          by ring]
    _ = (1 - aa) * |yv - c| := by
        rw [abs_mul, abs_of_nonneg (by linarith)]
    _ ≤ (1 - oefAlpha g.min_cutoff dt2) * |yv - c| :=
        mul_le_mul_of_nonneg_right (by linarith) (abs_nonneg _)

/-- Along the constant-input iteration, the state keeps a stored sample,
its timestamps advance by `dt`, the configuration never changes, and each
call contracts the error by the uniform factor. -/
lemma oefIter_invariant (f : OneEuroFilter) (xv tv c dt : ℚ)
    (hx : f.x = some xv) (ht : f.t = some tv)
    (hmc : 0 < f.min_cutoff) (hb : 0 ≤ f.beta) :
    ∀ n : ℕ,
      (∃ xn, (oefIter f c tv dt n).x = some xn) ∧
      (oefIter f c tv dt n).t = some (tv + n * dt) ∧
      (oefIter f c tv dt n).min_cutoff = f.min_cutoff ∧
      (oefIter f c tv dt n).beta = f.beta := by
  intro n
  induction n with
  | zero =>
      refine ⟨⟨xv, hx⟩, ?_, rfl, rfl⟩
      simp only [oefIter]
      rw [ht]
      norm_num
  | succ n ih =>
      obtain ⟨⟨xn, hxn⟩, htn, hm, hbn⟩ := ih
      have hstep := call_const_step (oefIter f c tv dt n) xn
        (tv + n * dt) c (tv + (n + 1 : ℕ) * dt) hxn htn
        (hm ▸ hmc) (hbn ▸ hb)
      exact ⟨⟨_, hstep.1⟩, hstep.2.1, hstep.2.2.1.trans hm,
        hstep.2.2.2.1.trans hbn⟩

/-- Each constant-input call contracts the error by the uniform factor
determined by the base cutoff and the (floored) time step. -/
lemma oefErr_contracts (f : OneEuroFilter) (xv tv c dt : ℚ)
    (hx : f.x = some xv) (ht : f.t = some tv)
    (hmc : 0 < f.min_cutoff) (hb : 0 ≤ f.beta) (n : ℕ) :
    oefErr f c tv dt (n + 1) ≤
      (1 - oefAlpha f.min_cutoff (max dt (1/1000000))) *
        oefErr f c tv dt n := by
  obtain ⟨⟨xn, hxn⟩, htn, hm, hbn⟩ :=
    oefIter_invariant f xv tv c dt hx ht hmc hb n
  have hstep := call_const_step (oefIter f c tv dt n) xn
    (tv + n * dt) c (tv + (n + 1 : ℕ) * dt) hxn htn (hm ▸ hmc) (hbn ▸ hb)
  have h1 : oefErr f c tv dt (n + 1) =
      |((oefIter f c tv dt n).call c (tv + (n + 1 : ℕ) * dt)).2 - c| := by
    rw [oefErr, oefIter, hstep.1]
    rfl
  have h2 : oefErr f c tv dt n = |xn - c| := by
    rw [oefErr, hxn]
    rfl
  rw [h1, h2]
  have := hstep.2.2.2.2.2
  rw [oefDt_shift tv dt n, hm] at this
  exact this

/-- Claim C7: for a constant input held across repeated calls at a fixed
positive time step after the first sample, the error to the input
contracts by a uniform factor strictly below 1 on every call and tends to
0, i.e. the filter's steady-state gain is 1. -/
theorem filter_converges_on_constant_input (f : OneEuroFilter)
    (xv tv c dt : ℚ) (hx : f.x = some xv) (ht : f.t = some tv)
    (hmc : 0 < f.min_cutoff) (hb : 0 ≤ f.beta) (hdt : 0 < dt) :
    ∃ q : ℚ, 0 ≤ q ∧ q < 1 ∧
      (∀ n : ℕ, oefErr f c tv dt (n + 1) ≤ q * oefErr f c tv dt n) ∧
      (∀ ε : ℚ, 0 < ε → ∃ N : ℕ, ∀ n : ℕ, N ≤ n →
        oefErr f c tv dt n < ε) := by
  have hdtm : 0 < max dt (1/1000000) := lt_max_of_lt_left hdt
  set q := 1 - oefAlpha f.min_cutoff (max dt (1/1000000)) with hq
  have hq0 : 0 ≤ q := by
    have := oefAlpha_lt_one hmc hdtm
    simp only [hq]
    linarith
  have hq1 : q < 1 := by
    have := oefAlpha_pos hmc hdtm
    simp only [hq]
    linarith
  have hcontract := fun n => oefErr_contracts f xv tv c dt hx ht hmc hb n
  have herr_nonneg : ∀ n, 0 ≤ oefErr f c tv dt n := fun n => abs_nonneg _
  have hpow : ∀ n : ℕ, oefErr f c tv dt n ≤ q ^ n * oefErr f c tv dt 0 := by
    intro n
    induction n with
    | zero => simp
    | succ n ih =>
        calc oefErr f c tv dt (n + 1) ≤ q * oefErr f c tv dt n :=
              hcontract n
          _ ≤ q * (q ^ n * oefErr f c tv dt 0) :=
              mul_le_mul_of_nonneg_left ih hq0
          _ = q ^ (n + 1) * oefErr f c tv dt 0 := by ring
  refine ⟨q, hq0, hq1, hcontract, ?_⟩
  intro ε hε
  rcases le_or_lt (oefErr f c tv dt 0) 0 with h0 | h0
  · refine ⟨0, fun n _ => ?_⟩
    have h1 := hpow n
    have h2 : q ^ n * oefErr f c tv dt 0 ≤ 0 :=
      mul_nonpos_of_nonneg_of_nonpos (pow_nonneg hq0 n) h0
    linarith
  · obtain ⟨N, hN⟩ := exists_pow_lt_of_lt_one
      (div_pos hε h0) hq1
    refine ⟨N, fun n hn => ?_⟩
    have h1 := hpow n
    have h2 : q ^ n ≤ q ^ N := pow_le_pow_of_le_one hq0 (le_of_lt hq1) hn
    have h3 : q ^ n * oefErr f c tv dt 0 ≤ q ^ N * oefErr f c tv dt 0 :=
      mul_le_mul_of_nonneg_right h2 (le_of_lt h0)
    have h4 : q ^ N * oefErr f c tv dt 0 < (ε / oefErr f c tv dt 0) *
        oefErr f c tv dt 0 :=
      mul_lt_mul_of_pos_right hN h0
    rw [div_mul_cancel₀ ε (ne_of_gt h0)] at h4
    linarith

/-- Witness for C7: the contraction applied to a fresh filter holding the
sample 0 at time 0, driven by the constant input 1 at 30 fps. -/
theorem filter_converges_witness :
    (oefAt 0 0 0).x = some 0 ∧ (oefAt 0 0 0).t = some 0 ∧
    0 < (oefAt 0 0 0).min_cutoff ∧ 0 ≤ (oefAt 0 0 0).beta ∧
    (0 : ℚ) < 1/30 ∧
    ∃ q : ℚ, 0 ≤ q ∧ q < 1 ∧
      (∀ n : ℕ, oefErr (oefAt 0 0 0) 1 0 (1/30) (n + 1) ≤
        q * oefErr (oefAt 0 0 0) 1 0 (1/30) n) ∧
      (∀ ε : ℚ, 0 < ε → ∃ N : ℕ, ∀ n : ℕ, N ≤ n →
        oefErr (oefAt 0 0 0) 1 0 (1/30) n < ε) :=
  ⟨rfl, rfl, by norm_num [oefAt, S_OEF_MIN_CUTOFF],
   by norm_num [oefAt, S_OEF_BETA], by norm_num,
   filter_converges_on_constant_input (oefAt 0 0 0) 0 0 1 (1/30) rfl rfl
     (by norm_num [oefAt, S_OEF_MIN_CUTOFF])
     (by norm_num [oefAt, S_OEF_BETA]) (by norm_num)⟩

end GestureServer
